import Mathlib

/-!
Verification of the Flask-use-Calculator static-site router.

The repository has two variants of the same application:
  * `api/index.py` (serverless variant): routes `/`, `/static/<path:filename>`,
    `/static/style/<path:filename>`, a self-guarding 404 handler and a plain 500 handler.
  * `main.py` (standalone variant): route `/` plus Flask's built-in static route,
    a non-guarded 404 handler, a plain 500 handler, and environment-based
    port/debug configuration.

We embed the handlers shallowly: the filesystem is an association list from
absolute path segment lists to file contents, handlers are pure functions of
the filesystem and the request path (split into segments), and library
behaviour (werkzeug `safe_join`/`send_from_directory`, Flask dispatch and
error-handler conversion, `mimetypes.guess_type`) is modelled explicitly.
-/

namespace Calc

/-- A filesystem: finite association of absolute paths (segment lists) to
file contents.  Only regular files appear; directories are absent keys. -/
abbrev FS := List (List String × String)

/-- Look a path up in the filesystem. -/
def lookupFS : FS → List String → Option String
  | [], _ => none
  | (p, c) :: rest, q => if p = q then some c else lookupFS rest q

/-- An HTTP response: status code, body and content type. -/
structure Response where
  status : Nat
  body : String
  contentType : String
deriving DecidableEq, Repr

/-- The outcome of running a route handler body: a 200 payload, a raised
`NotFound` (werkzeug aborts with 404), or an unexpected exception. -/
inductive HandlerResult where
  | ok (body : String) (contentType : String)
  | notFound
  | error
deriving DecidableEq, Repr

/-- Flask's content type for handlers that return a plain string. -/
def textHtml : String := "text/html; charset=utf-8"

/-- The characters after the last dot of a name, `none` when it has no dot. -/
def afterLastDot : List Char → Option (List Char)
  | [] => none
  | c :: rest =>
    match afterLastDot rest with
    | some e => some e
    | none => if c = '.' then some rest else none

/-- File extension: the part of a name after its last dot (empty if none). -/
def extOf (name : String) : String :=
  match afterLastDot name.data with
  | some e => String.mk e
  | none => ""

/-- Content type inferred from a file name, as `mimetypes.guess_type` does
(common table entries; unknown extensions fall back to octet-stream). -/
def guessType (name : String) : String :=
  match extOf name with
  | "html" => "text/html"
  | "htm" => "text/html"
  | "css" => "text/css"
  | "js" => "text/javascript"
  | "json" => "application/json"
  | "png" => "image/png"
  | "jpg" => "image/jpeg"
  | "jpeg" => "image/jpeg"
  | "gif" => "image/gif"
  | "svg" => "image/svg+xml"
  | "ico" => "image/vnd.microsoft.icon"
  | "txt" => "text/plain"
  | _ => "application/octet-stream"

/-- Last segment of a path (the file's base name). -/
def lastStr (l : List String) : String := l.getLast?.getD ""

/-- Relative-path normalisation, the checked core of werkzeug's `safe_join`:
process segments with a stack; `""` and `"."` are dropped, `".."` pops.
`acc` holds the stack in reverse.  Returns `none` exactly when the walk
escapes the starting directory (when `posixpath.normpath` of the joined
path is `".."` or starts with `"../"`, which `safe_join` rejects). -/
def normAux : List String → List String → Option (List String)
  | acc, [] => some acc.reverse
  | acc, s :: rest =>
    if s = "" ∨ s = "." then normAux acc rest
    else if s = ".." then
      match acc with
      | [] => none
      | _ :: acc2 => normAux acc2 rest
    else normAux (s :: acc) rest

/-- Normalise a relative path given as segments; `none` when it escapes. -/
def normSegs (l : List String) : Option (List String) := normAux [] l

/-- werkzeug `send_from_directory dir filename` over our filesystem model:
reject escaping paths with `NotFound`, look the resolved file up, serve it
with the content type guessed from its name, `NotFound` when absent. -/
def send_from_directory (fs : FS) (dir : List String) (filename : List String) :
    HandlerResult :=
  match normSegs filename with
  | none => .notFound
  | some s =>
    match lookupFS fs (dir ++ s) with
    | some c => .ok c (guessType (lastStr (dir ++ s)))
    | none => .notFound

/-- `render_template name` over our model: Jinja looks the template up under
the application's `templates` folder; with no variables passed the rendered
document is the stored content; a missing template raises (`.none`). -/
def render_template (root : List String) (fs : FS) (name : String) : Option String :=
  lookupFS fs (root ++ ["templates", name])

/-- `home` (identical in both variants): render `index.html`; a missing
template raises and surfaces as an unexpected error. -/
def home (root : List String) (fs : FS) : HandlerResult :=
  match render_template root fs "index.html" with
  | some b => .ok b textHtml
  | none => .error

/-- `serve_static` from `api/index.py`: serve `filename` from `ROOT_DIR/static`. -/
def serve_static (root : List String) (fs : FS) (filename : List String) :
    HandlerResult :=
  send_from_directory fs (root ++ ["static"]) filename

/-- `serve_style` from `api/index.py`: serve `filename` from `ROOT_DIR/static/style`. -/
def serve_style (root : List String) (fs : FS) (filename : List String) :
    HandlerResult :=
  send_from_directory fs (root ++ ["static", "style"]) filename

/-- `internal_error` from both variants: the 500 error handler.  It takes the
filesystem only to state that it never reads it (no rendering, no file I/O). -/
def internal_error (_fs : FS) : Response :=
  ⟨500, "Internal Server Error", textHtml⟩

/-- `page_not_found` from `api/index.py`: render `404.html`; on any rendering
failure fall back to the inline plain-text body (the `try`/`except` guard). -/
def page_not_found (root : List String) (fs : FS) : Response :=
  match render_template root fs "404.html" with
  | some b => ⟨404, b, textHtml⟩
  | none => ⟨404, "Page Not Found", textHtml⟩

/-- Convert a handler outcome into the final response, as Flask does: a raised
`NotFound` is passed to the 404 error handler, an unexpected exception to the
500 error handler. -/
def toResponse (root : List String) (fs : FS) : HandlerResult → Response
  | .ok b ct => ⟨200, b, ct⟩
  | .notFound => page_not_found root fs
  | .error => internal_error fs

/-- Does the request path match some registered route of `api/index.py`?
`/` matches `home`; `/static/<path:filename>` needs a nonempty `filename`
(the `path` converter matches at least one character); the style rule is
subsumed by the static rule for matching purposes. -/
def routeMatches : List String → Bool
  | [] => true
  | p :: rest => if p = "static" then !rest.isEmpty else false

/-- Full request dispatch of `api/index.py`.  werkzeug orders rules by
specificity, so `/static/style/<path:filename>` is tried before
`/static/<path:filename>`; an unmatched path goes to the 404 handler. -/
def appResponseApi (root : List String) (fs : FS) (path : List String) : Response :=
  match path with
  | [] => toResponse root fs (home root fs)
  | p :: rest =>
    if p = "static" then
      match rest with
      | [] => page_not_found root fs
      | q :: rest2 =>
        if q = "style" ∧ rest2 ≠ [] then
          toResponse root fs (serve_style root fs rest2)
        else
          toResponse root fs (serve_static root fs (q :: rest2))
    else page_not_found root fs

namespace Main

/-- `page_not_found` from `main.py`: render `404.html` with NO `try`/`except`
guard.  When rendering raises, the exception escapes the 404 error handler and
Flask converts it through the registered 500 handler (`internal_error`). -/
def notFoundResponse (dir : List String) (fs : FS) : Response :=
  match render_template dir fs "404.html" with
  | some b => ⟨404, b, textHtml⟩
  | none => internal_error fs

/-- Full request dispatch of `main.py`: the `/` route, Flask's built-in
`/static/<path:filename>` route (default `static_folder` next to `main.py`,
served through the same safe `send_from_directory` primitive), and otherwise
the 404 error handler. -/
def appResponse (dir : List String) (fs : FS) (path : List String) : Response :=
  match path with
  | [] =>
    match home dir fs with
    | .ok b ct => ⟨200, b, ct⟩
    | _ => internal_error fs
  | p :: rest =>
    if p = "static" then
      match rest with
      | [] => notFoundResponse dir fs
      | q :: rest2 =>
        match send_from_directory fs (dir ++ ["static"]) (q :: rest2) with
        | .ok b ct => ⟨200, b, ct⟩
        | _ => notFoundResponse dir fs
    else notFoundResponse dir fs

end Main

/-! ### Startup configuration (`main.py` `__main__` block) -/

/-- The process environment: an association of variable names to values. -/
abbrev Env := List (String × String)

/-- `os.environ.get k` over our environment model. -/
def envGet : Env → String → Option String
  | [], _ => none
  | (k, v) :: rest, q => if k = q then some v else envGet rest q

/-- Python `int(...)` applied to a string: an optionally signed decimal
numeral (surrounding whitespace stripped); `none` models the raised
`ValueError` on anything else. -/
def pyInt (s : String) : Option Int := s.trim.toInt?

/-- `port = int(os.environ.get("PORT", 5000))`: when `PORT` is unset the
default `5000` (already an integer) is used; otherwise its string value is
parsed. -/
def startPort (env : Env) : Option Int :=
  match envGet env "PORT" with
  | none => some 5000
  | some s => pyInt s

/-- Python `str.lower()` on ASCII text (the characters that matter here). -/
def pyLower (s : String) : String := String.mk (s.data.map Char.toLower)

/-- `debug_mode = os.environ.get("FLASK_DEBUG", "False").lower() == "true"`. -/
def debugMode (env : Env) : Bool :=
  pyLower ((envGet env "FLASK_DEBUG").getD "False") == "true"

/-- `app.run(host, port, debug)`: the environment-derived values are handed
to the server loop for transport binding and error verbosity only; the
response computed for a request path is `main.py`'s dispatch, which reads no
environment. -/
def serverStep (_env : Env) (dir : List String) (fs : FS) (path : List String) :
    Response :=
  Main.appResponse dir fs path

/-! ### Startup path resolution (`api/index.py` lines 6-16) -/

/-- A process launch: the absolute path of `api/index.py` (Python's
`__file__` for an imported module is absolute) and the current working
directory at launch. -/
structure Launch where
  installPath : List String
  cwd : List String

/-- `Path(p).resolve()` skeleton: an absolute path stands as is, a relative
one is anchored at the current working directory. -/
def resolvePath (cwd : List String) (isAbs : Bool) (segs : List String) :
    List String :=
  if isAbs then segs else cwd ++ segs

/-- `ROOT_DIR = Path(__file__).resolve().parent.parent`. -/
def ROOT_DIR (l : Launch) : List String :=
  ((resolvePath l.cwd true l.installPath).dropLast).dropLast

/-- `static_folder = ROOT_DIR / 'static'`. -/
def staticFolder (l : Launch) : List String := ROOT_DIR l ++ ["static"]

/-- `template_folder = ROOT_DIR / 'templates'`. -/
def templateFolder (l : Launch) : List String := ROOT_DIR l ++ ["templates"]

/-! ### Request sequences (statelessness) -/

/-- One request-response cycle of the serverless variant, threading the only
observable state (the filesystem): the handlers read it and never write it. -/
def handleReqApi (root : List String) (fs : FS) (p : List String) :
    Response × FS :=
  (appResponseApi root fs p, fs)

/-- Serve a sequence of requests, each seeing the state the previous left. -/
def serveSeqApi (root : List String) : FS → List (List String) → List Response
  | _, [] => []
  | fs, p :: ps =>
    (handleReqApi root fs p).1 :: serveSeqApi root (handleReqApi root fs p).2 ps

/-! ### Concrete fixtures used by counterexamples and witnesses -/

/-- A deployment whose static tree holds one JavaScript file. -/
def fsJs : FS := [(["app", "static", "x.js"], "JSCONTENT")]

/-- A deployment whose static tree holds one style sheet. -/
def fsCss : FS := [(["app", "static", "style", "main.css"], "CSS")]

/-- A deployment with a style sheet, for exercising the style route alone. -/
def fsCss2 : FS := [(["app", "static", "style", "a.css"], "CSS2")]

/-- A deployment holding a sensitive file directly under the static root. -/
def fsSecret : FS := [(["srv", "static", "secret.txt"], "TOPSECRET")]

/-- A deployment holding only the homepage template. -/
def fsHome : FS := [(["app", "templates", "index.html"], "<html>calc</html>")]

/-! ### Helper lemmas -/

/-- Pushing an extra directory under the bottom of the stack: a walk that
never escapes still never escapes, and resolves one level deeper. -/
theorem normAux_deep (x : String) :
    ∀ (l acc r : List String), normAux acc l = some r →
      normAux (acc ++ [x]) l = some (x :: r)
  | [], acc, r, h => by
    simp only [normAux, Option.some.injEq] at h
    simp only [normAux, List.reverse_append, List.reverse_cons,
      List.reverse_nil, List.nil_append, List.cons_append, h]
  | s :: rest, acc, r, h => by
    by_cases h1 : s = "" ∨ s = "."
    · simp only [normAux, if_pos h1] at h ⊢
      exact normAux_deep x rest acc r h
    · by_cases h2 : s = ".."
      · cases acc with
        | nil => simp [normAux, h1, h2] at h
        | cons a acc2 =>
          simp only [normAux, if_neg h1, if_pos h2, List.cons_append] at h ⊢
          exact normAux_deep x rest acc2 r h
      · simp only [normAux, if_neg h1, if_neg h2] at h ⊢
        have := normAux_deep x rest (s :: acc) r h
        simpa using this

/-- Contrapositive form: if the deeper walk escapes, the shallower one does. -/
theorem normAux_escape (x : String) (l acc : List String)
    (h : normAux (acc ++ [x]) l = none) : normAux acc l = none := by
  cases hh : normAux acc l with
  | none => rfl
  | some r => rw [normAux_deep x l acc r hh] at h; cases h

/-- Unfolding `normSegs` over an ordinary leading segment. -/
theorem normSegs_cons (x : String) (l : List String)
    (h1 : ¬(x = "" ∨ x = ".")) (h2 : x ≠ "..") :
    normSegs (x :: l) = normAux [x] l := by
  simp only [normSegs, normAux, if_neg h1, if_neg h2]

/-- A request sequence under the serverless app: every request is answered
from the same filesystem, since no handler writes. -/
theorem serveSeqApi_eq_map (root : List String) (fs : FS) :
    ∀ l, serveSeqApi root fs l = l.map (appResponseApi root fs)
  | [] => rfl
  | p :: ps => by
    simp only [serveSeqApi, handleReqApi, List.map_cons]
    rw [serveSeqApi_eq_map root fs ps]

/-- The two static handlers agree on filenames that stay inside the style
subdirectory: both resolve to the same file under `static/style`. -/
theorem style_static_agree (root : List String) (fs : FS) (f t : List String)
    (ht : normSegs f = some t) :
    serve_style root fs f = serve_static root fs ("style" :: f) := by
  have hfull : normSegs ("style" :: f) = some ("style" :: t) := by
    rw [normSegs_cons "style" f (by decide) (by decide)]
    simpa using normAux_deep "style" f [] t ht
  have hpath : root ++ ["static", "style"] ++ t =
      root ++ ["static"] ++ ("style" :: t) := by simp
  simp only [serve_style, serve_static, send_from_directory, ht, hfull, hpath]

/-- The 404 page always carries status 404, whatever the filesystem holds. -/
theorem page_not_found_status (root : List String) (fs : FS) :
    (page_not_found root fs).status = 404 := by
  unfold page_not_found
  cases render_template root fs "404.html" <;> rfl

/-! ### Claims -/

/-- C5: the server-error handler always returns exactly the plain-text body
"Internal Server Error" with status 500; it reads no state (its result is the
same for every filesystem, so it performs no rendering and no file I/O), and
it is what a failing handler's request resolves to. -/
theorem internal_error_constant_500 (fs fs2 : FS) (root : List String) :
    internal_error fs = ⟨500, "Internal Server Error", textHtml⟩ ∧
    internal_error fs = internal_error fs2 ∧
    (render_template root fs "index.html" = none →
      appResponseApi root fs [] = internal_error fs) := by
  refine ⟨rfl, rfl, fun h => ?_⟩
  simp only [appResponseApi, toResponse, home, h]

/-- C5 witness: on an empty filesystem the homepage render fails and the
response is the constant 500. -/
theorem internal_error_constant_500_w :
    appResponseApi ["app"] ([] : FS) [] = internal_error ([] : FS) :=
  (internal_error_constant_500 ([] : FS) ([] : FS) ["app"]).2.2 (by decide)

/-- C6: the bind port comes from `PORT` (integer-parsed, default 5000 when
unset), the debug flag defaults to off when unset, and the environment never
influences which handler answers a request or what it returns: the response
of the running server is the same under any two environments. -/
theorem startup_config_and_noninterference (env : Env) :
    (envGet env "PORT" = none → startPort env = some 5000) ∧
    (∀ s, envGet env "PORT" = some s → startPort env = pyInt s) ∧
    (envGet env "FLASK_DEBUG" = none → debugMode env = false) ∧
    (∀ env2 dir fs path, serverStep env dir fs path = serverStep env2 dir fs path) := by
  refine ⟨fun h => ?_, fun s h => ?_, fun h => ?_, fun env2 dir fs path => rfl⟩
  · simp only [startPort, h]
  · simp only [startPort, h]
  · simp only [debugMode, h, Option.getD]
    decide

/-- C6 witness: in an empty environment the port defaults to 5000 and debug
is off. -/
theorem startup_config_and_noninterference_w :
    startPort ([] : Env) = some 5000 ∧ debugMode ([] : Env) = false :=
  ⟨(startup_config_and_noninterference ([] : Env)).1 rfl,
   (startup_config_and_noninterference ([] : Env)).2.2.1 rfl⟩

/-- C7: the assets and template directories are fixed subdirectories of an
application root derived from the entry point's resolved install location;
two launches from different working directories yield identical paths. -/
theorem asset_paths_cwd_independent (p c c2 : List String) :
    staticFolder ⟨p, c⟩ = staticFolder ⟨p, c2⟩ ∧
    templateFolder ⟨p, c⟩ = templateFolder ⟨p, c2⟩ ∧
    staticFolder ⟨p, c⟩ = ROOT_DIR ⟨p, c⟩ ++ ["static"] ∧
    templateFolder ⟨p, c⟩ = ROOT_DIR ⟨p, c⟩ ++ ["templates"] ∧
    ROOT_DIR ⟨p, c⟩ = p.dropLast.dropLast :=
  ⟨rfl, rfl, rfl, rfl, rfl⟩

/-- C9: request handling is deterministic and stateless: a request leaves the
observable state untouched, and the same path asked at the start and at the
end of any request sequence receives the identical response. -/
theorem handlers_deterministic_stateless (root : List String) (fs : FS)
    (p : List String) (ps : List (List String)) :
    (handleReqApi root fs p).2 = fs ∧
    (serveSeqApi root fs ([p] ++ ps ++ [p])).head? =
      some (appResponseApi root fs p) ∧
    (serveSeqApi root fs ([p] ++ ps ++ [p])).getLast? =
      some (appResponseApi root fs p) := by
  refine ⟨rfl, ?_, ?_⟩
  · rw [serveSeqApi_eq_map]
    rfl
  · rw [serveSeqApi_eq_map]
    simp only [List.map_append, List.map_cons, List.map_nil, List.cons_append,
      List.nil_append]
    rw [← List.cons_append, List.getLast?_concat]

/-- C10: debug mode is on exactly when `FLASK_DEBUG` is set to a value that
lowercases to "true"; unset or any other value (such as "1" or "yes") leaves
it off. -/
theorem debug_iff_flask_debug_true (env : Env) :
    debugMode env = true ↔
      ∃ v, envGet env "FLASK_DEBUG" = some v ∧ pyLower v = "true" := by
  unfold debugMode
  cases h : envGet env "FLASK_DEBUG" with
  | none =>
    simp only [h, Option.getD]
    constructor
    · intro hb
      exact absurd hb (by decide)
    · rintro ⟨v, hv, _⟩
      cases hv
  | some v =>
    simp only [h, Option.getD, beq_iff_eq, Option.some.injEq]
    constructor
    · intro hb
      exact ⟨v, rfl, hb⟩
    · rintro ⟨v2, hv2, hl⟩
      cases hv2
      exact hl

/-- C1 (amended, holds for the serverless variant `api/index.py`): every
request whose path matches no registered route is answered by the not-found
handler with status 404, and when rendering `404.html` fails the handler
falls back to the inline plain-text body "Page Not Found", still with 404,
rather than escalating.  (`main.py`'s handler lacks the guard; see the
counterexample.) -/
theorem unmatched_404_selfguard (root : List String) (fs : FS)
    (path : List String) (h : routeMatches path = false) :
    appResponseApi root fs path = page_not_found root fs ∧
    (page_not_found root fs).status = 404 ∧
    (render_template root fs "404.html" = none →
      page_not_found root fs = ⟨404, "Page Not Found", textHtml⟩) := by
  refine ⟨?_, page_not_found_status root fs, fun h4 => ?_⟩
  · cases path with
    | nil => simp [routeMatches] at h
    | cons p rest =>
      by_cases hp : p = "static"
      · subst hp
        have hrest : rest = [] := by
          cases rest with
          | nil => rfl
          | cons r rs => simp [routeMatches] at h
        subst hrest
        simp [appResponseApi]
      · simp [appResponseApi, hp]
  · simp only [page_not_found, h4]

/-- C1 witness: on an empty filesystem (no `404.html`), an unknown path gets
the plain-text 404 fallback. -/
theorem unmatched_404_selfguard_w :
    appResponseApi ["app"] ([] : FS) ["nope"] = page_not_found ["app"] ([] : FS) ∧
    page_not_found ["app"] ([] : FS) = ⟨404, "Page Not Found", textHtml⟩ :=
  ⟨(unmatched_404_selfguard ["app"] ([] : FS) ["nope"] (by decide)).1,
   (unmatched_404_selfguard ["app"] ([] : FS) ["nope"] (by decide)).2.2 (by decide)⟩

/-- C1 counterexample: in `main.py` the 404 handler renders `404.html`
without a guard; with the template absent, an unmatched path is answered with
a 500 "Internal Server Error", not a 404. -/
theorem main_404_escalates_to_500 :
    Main.appResponse ["app"] ([] : FS) ["nope"] =
      ⟨500, "Internal Server Error", textHtml⟩ ∧
    (Main.appResponse ["app"] ([] : FS) ["nope"]).status ≠ 404 :=
  ⟨by decide, by decide⟩

/-- C2: a static request whose path escapes the assets root is rejected by
both static handlers with `NotFound`, and the application's response is the
404 page: never a 200, and never the content of a file outside the root. -/
theorem traversal_never_served (root : List String) (fs : FS)
    (fn : List String) (h : normSegs fn = none) :
    serve_static root fs fn = .notFound ∧
    serve_style root fs fn = .notFound ∧
    appResponseApi root fs ("static" :: fn) = page_not_found root fs ∧
    (appResponseApi root fs ("static" :: fn)).status = 404 := by
  have hstat : serve_static root fs fn = .notFound := by
    simp only [serve_static, send_from_directory, h]
  have hsty : serve_style root fs fn = .notFound := by
    simp only [serve_style, send_from_directory, h]
  have happ : appResponseApi root fs ("static" :: fn) = page_not_found root fs := by
    cases fn with
    | nil => exact absurd h (by decide)
    | cons q rest2 =>
      simp only [appResponseApi, if_pos rfl]
      by_cases hq : q = "style" ∧ rest2 ≠ []
      · rw [if_pos hq]
        obtain ⟨hq1, _⟩ := hq
        subst hq1
        have hrest : normSegs rest2 = none := by
          rw [normSegs_cons "style" rest2 (by decide) (by decide)] at h
          exact normAux_escape "style" rest2 [] (by simpa using h)
        simp only [toResponse, serve_style, send_from_directory, hrest]
        simp
      · rw [if_neg hq]
        simp only [toResponse, serve_static, send_from_directory, h]
        simp
  exact ⟨hstat, hsty, happ, by rw [happ]; exact page_not_found_status root fs⟩

/-- C2 witness: `/static/../../etc/passwd` is refused and answered 404. -/
theorem traversal_never_served_w :
    serve_static ["srv"] fsSecret ["..", "..", "etc", "passwd"] = .notFound ∧
    (appResponseApi ["srv"] fsSecret
      ["static", "..", "..", "etc", "passwd"]).status = 404 :=
  ⟨(traversal_never_served ["srv"] fsSecret ["..", "..", "etc", "passwd"]
      (by decide)).1,
   (traversal_never_served ["srv"] fsSecret ["..", "..", "etc", "passwd"]
      (by decide)).2.2.2⟩

/-- C4: `GET /` renders `index.html` with status 200 whenever the template is
present (both variants agree), and the only failure mode is a missing
template, which surfaces as the 500 server error. -/
theorem home_renders_index (root : List String) (fs : FS) :
    (∀ b, render_template root fs "index.html" = some b →
      appResponseApi root fs [] = ⟨200, b, textHtml⟩ ∧
      Main.appResponse root fs [] = ⟨200, b, textHtml⟩) ∧
    (render_template root fs "index.html" = none →
      appResponseApi root fs [] = internal_error fs ∧
      Main.appResponse root fs [] = internal_error fs) := by
  constructor
  · intro b hb
    constructor <;>
      simp only [appResponseApi, Main.appResponse, toResponse, home, hb]
  · intro h
    constructor <;>
      simp only [appResponseApi, Main.appResponse, toResponse, home, h]

/-- C4 witness: with the homepage template on disk, `GET /` is a 200 whose
body is the rendered document. -/
theorem home_renders_index_w :
    appResponseApi ["app"] fsHome [] = ⟨200, "<html>calc</html>", textHtml⟩ :=
  ((home_renders_index ["app"] fsHome).1 "<html>calc</html>" (by decide)).1

/-- C3 (amended): for a nonempty static path that resolves inside the assets
root — excluding paths that begin with `style` and whose remainder escapes
the style subdirectory, which the more specific style route intercepts and
rejects — an existing file is served with 200, its exact content and the
extension-inferred content type, and a missing file defers to the not-found
handler. -/
theorem static_serves_existing_files (root : List String) (fs : FS)
    (fn s : List String) (hne : fn ≠ [])
    (hn : normSegs fn = some s)
    (hstyle : ∀ rest, fn = "style" :: rest → (normSegs rest).isSome = true) :
    (∀ c, lookupFS fs (root ++ ["static"] ++ s) = some c →
      appResponseApi root fs ("static" :: fn) =
        ⟨200, c, guessType (lastStr (root ++ ["static"] ++ s))⟩) ∧
    (lookupFS fs (root ++ ["static"] ++ s) = none →
      appResponseApi root fs ("static" :: fn) = page_not_found root fs) := by
  have key : appResponseApi root fs ("static" :: fn) =
      toResponse root fs (serve_static root fs fn) := by
    cases fn with
    | nil => exact absurd rfl hne
    | cons q rest2 =>
      simp only [appResponseApi, if_pos rfl]
      by_cases hq : q = "style" ∧ rest2 ≠ []
      · rw [if_pos hq]
        obtain ⟨hq1, _⟩ := hq
        subst hq1
        obtain ⟨t, ht⟩ := Option.isSome_iff_exists.mp (hstyle rest2 rfl)
        rw [style_static_agree root fs rest2 t ht]
        simp
      · rw [if_neg hq]
        simp
  rw [key]
  simp only [serve_static, send_from_directory, hn]
  constructor
  · intro c hc
    simp only [hc, toResponse]
  · intro hc
    simp only [hc, toResponse]

/-- C3 witness: an existing style sheet under the assets root is served with
200, byte-identical content and the CSS content type. -/
theorem static_serves_existing_files_w :
    appResponseApi ["app"] fsCss ["static", "style", "main.css"] =
      ⟨200, "CSS", "text/css"⟩ := by
  have h := ((static_serves_existing_files ["app"] fsCss
      ["style", "main.css"] ["style", "main.css"] (by decide) (by decide)
      (fun rest hr => by injection hr with h1 h2; subst h2; decide)).1)
      "CSS" (by decide)
  rw [h]
  decide

/-- C3 counterexample: `/static/style/../x.js` resolves to `static/x.js`,
an existing file strictly inside the assets root, yet the response is the
404 page: the more specific style route intercepts the request and rejects
the traversal before `serve_static` can see it. -/
theorem static_shadowed_by_style_route :
    normSegs ["style", "..", "x.js"] = some ["x.js"] ∧
    lookupFS fsJs (["app"] ++ ["static"] ++ ["x.js"]) = some "JSCONTENT" ∧
    (appResponseApi ["app"] fsJs ["static", "style", "..", "x.js"]).status = 404 ∧
    (appResponseApi ["app"] fsJs ["static", "style", "..", "x.js"]).body =
      "Page Not Found" :=
  ⟨by decide, by decide, by decide, by decide⟩

/-- C8 (amended): for every filename whose normalisation stays inside the
style subdirectory, the dedicated style handler and the generic static
handler on `style/<filename>` return the identical result; filenames that
escape are the exception — `serve_style` rejects them while `serve_static`
may resolve them elsewhere under the assets root (see the counterexample). -/
theorem style_route_refines_static (root : List String) (fs : FS)
    (f t : List String) (ht : normSegs f = some t) :
    serve_style root fs f = serve_static root fs ("style" :: f) :=
  style_static_agree root fs f t ht

/-- C8 witness: a plain style-sheet name is served identically by the two
handlers. -/
theorem style_route_refines_static_w :
    serve_style ["app"] fsCss2 ["a.css"] =
      serve_static ["app"] fsCss2 ["style", "a.css"] :=
  style_route_refines_static ["app"] fsCss2 ["a.css"] ["a.css"] (by decide)

/-- C8 counterexample: with `static/secret.txt` on disk, `serve_style` on
`../secret.txt` answers `NotFound` while `serve_static` on
`style/../secret.txt` serves that file's content: the two handlers disagree. -/
theorem style_static_disagree_on_escape :
    serve_style ["srv"] fsSecret ["..", "secret.txt"] = .notFound ∧
    serve_static ["srv"] fsSecret ["style", "..", "secret.txt"] =
      .ok "TOPSECRET" "text/plain" ∧
    HandlerResult.notFound ≠ HandlerResult.ok "TOPSECRET" "text/plain" :=
  ⟨by decide, by decide, by decide⟩

end Calc
